import Mathlib

/-!
# SoroScan TypeScript SDK — verification of the transport core and resource façade

This file is a shallow embedding of `sdk/typescript/src/client.ts`of the
soroscan repository: the `SoroScanClient` constructor, the private
`#request` pipeline (URL construction, headers, timeout/abort handling,
response decoding and error normalisation), the `toQueryString` helper,
and the per-resource façade methods. Stateful or effectful parts (the
`fetch` call, the abort timer) are modelled by passing the outcome of the
single fetch as an explicit argument; everything else in the source is
pure and is translated directly.
-/

namespace SoroScan

/-- A JavaScript runtime value as it can appear in a query-parameter bag
(`Record<string, unknown>` restricted to the primitives the SDK's typed
params actually carry).  `undef` is JavaScript `undefined`. -/
inductive JsValue where
  | undef : JsValue
  | null : JsValue
  | str : String → JsValue
  | num : Int → JsValue
  | bool : Bool → JsValue
deriving DecidableEq, Repr

/-- Presence test used by `toQueryString`'s filter:
`v !== undefined && v !== null`. -/
def jsPresent : JsValue → Bool
  | .undef => false
  | .null => false
  | _ => true

/-- `String(v)` for the present primitive values (JavaScript stringification
as applied by `toQueryString` to each kept value). -/
def jsString : JsValue → String
  | .undef => "undefined"
  | .null => "null"
  | .str s => s
  | .num n => toString n
  | .bool true => "true"
  | .bool false => "false"

/-- A parsed JSON document, as produced by `response.json()`.  Object fields
are listed with the unique keys the JavaScript object ends up with after
parsing. -/
inductive Json where
  | null : Json
  | bool : Bool → Json
  | num : Int → Json
  | str : String → Json
  | arr : List Json → Json
  | obj : List (String × Json) → Json

/-- Nullish test: `json ?? fallback` takes the fallback exactly when `json`
is `null` (a `JSON.parse` result is never `undefined`). -/
def Json.isNull : Json → Bool
  | .null => true
  | _ => false

/-- Field lookup on an object's (unique-keyed) field list. -/
def lookupField : List (String × Json) → String → Option Json
  | [], _ => none
  | (k', v) :: rest, k => if k' = k then some v else lookupField rest k

/-- JavaScript property access `j.k`: `some` the field value on an object
that has the field, `none` (i.e. `undefined`) on a missing field or any
non-object value. -/
def jsonGet (j : Json) (k : String) : Option Json :=
  match j with
  | .obj fields => lookupField fields k
  | _ => none

/-! ## Percent-encoding

`encodeURIComponent` (used by the by-id façade methods) and the
`application/x-www-form-urlencoded` serialisation of `URLSearchParams`
(used by `toQueryString`).  Both keep an unreserved set verbatim and
percent-encode the UTF-8 bytes of everything else. -/

/-- One hexadecimal digit, uppercase, as emitted by percent-encoding. -/
def hexDigit : Nat → Char
  | 0 => '0' | 1 => '1' | 2 => '2' | 3 => '3' | 4 => '4' | 5 => '5'
  | 6 => '6' | 7 => '7' | 8 => '8' | 9 => '9' | 10 => 'A' | 11 => 'B'
  | 12 => 'C' | 13 => 'D' | 14 => 'E' | 15 => 'F' | _ => '0'

/-- `%XX` escape of one byte. -/
def percentHex (b : Nat) : List Char :=
  ['%', hexDigit (b / 16), hexDigit (b % 16)]

/-- UTF-8 bytes of one code point (the bytes `encodeURIComponent` and
`URLSearchParams` escape for a non-unreserved character). -/
def utf8Bytes (c : Char) : List Nat :=
  let n := c.toNat
  if n < 0x80 then [n]
  else if n < 0x800 then [0xC0 + n / 64, 0x80 + n % 64]
  else if n < 0x10000 then
    [0xE0 + n / 4096, 0x80 + (n / 64) % 64, 0x80 + n % 64]
  else
    [0xF0 + n / 262144, 0x80 + (n / 4096) % 64, 0x80 + (n / 64) % 64,
      0x80 + n % 64]

/-- The characters `encodeURIComponent` leaves verbatim:
`A–Z a–z 0–9 - _ . ! ~ * ' ( )`. -/
def isUnreservedComponent (c : Char) : Bool :=
  c.isAlphanum || c = '-' || c = '_' || c = '.' || c = '!' || c = '~'
    || c = '*' || c = Char.ofNat 39 || c = '(' || c = ')'

/-- `encodeURIComponent` on one character. -/
def encodeCharComponent (c : Char) : List Char :=
  if isUnreservedComponent c then [c]
  else ((utf8Bytes c).map percentHex).flatten

/-- `encodeURIComponent`, as used to interpolate identifiers into paths. -/
def encodeURIComponent (s : String) : String :=
  String.mk ((s.data.map encodeCharComponent).flatten)

/-- The bytes the `application/x-www-form-urlencoded` serialiser keeps
verbatim: ASCII alphanumerics and `* - . _`. -/
def isFormUnreserved (c : Char) : Bool :=
  c.isAlphanum || c = '*' || c = '-' || c = '.' || c = '_'

/-- Form-urlencoding of one character: space becomes `+`, unreserved
characters stay, everything else is percent-escaped byte by byte. -/
def formEncodeChar (c : Char) : List Char :=
  if c = ' ' then ['+']
  else if isFormUnreserved c then [c]
  else ((utf8Bytes c).map percentHex).flatten

/-- Form-urlencoding of a whole string (a `URLSearchParams` name or
value). -/
def formEncode (s : String) : String :=
  String.mk ((s.data.map formEncodeChar).flatten)

/-- `&`-joining of the serialised `name=value` pairs, as
`URLSearchParams.toString` does. -/
def joinAmp : List String → String
  | [] => ""
  | [x] => x
  | x :: y :: rest => x ++ "&" ++ joinAmp (y :: rest)

/-- `URLSearchParams(pairs).toString()`: each pair serialised as
`name=value` with both sides form-urlencoded, joined by `&`. -/
def urlSearchParamsToString (pairs : List (String × String)) : String :=
  joinAmp (pairs.map (fun kv => formEncode kv.1 ++ "=" ++ formEncode kv.2))

/-- `toQueryString` from `client.ts`: keep the entries whose value is
neither `undefined` nor `null` (in insertion order); return `""` when none
remain, otherwise `"?"` followed by the `URLSearchParams` serialisation of
the stringified entries. -/
def toQueryString (params : List (String × JsValue)) : String :=
  let entries := params.filter (fun kv => jsPresent kv.2)
  if entries.isEmpty then ""
  else "?" ++ urlSearchParamsToString (entries.map (fun kv => (kv.1, jsString kv.2)))

/-! ## Client state, configuration and errors -/

/-- A thrown JavaScript `Error` value (all failures `fetch` rejects with are
`Error` instances), identified by its `name` and `message`. -/
structure JsError where
  name : String
  message : String
deriving DecidableEq, Repr

/-- `SoroScanClientConfig`: required base URL, optional API key, optional
timeout in milliseconds. -/
structure SoroScanClientConfig where
  baseUrl : String
  apiKey : Option String
  timeoutMs : Option Nat
deriving DecidableEq, Repr

/-- The client's private fields `#baseUrl`, `#apiKey`, `#timeoutMs`,
all declared `readonly` and assigned only in the constructor. -/
structure ClientState where
  baseUrl : String
  apiKey : Option String
  timeoutMs : Nat
deriving DecidableEq, Repr

/-- `config.baseUrl.replace(/\/$/, "")`: the regex matches a single `/` at
the end of the string, so exactly one trailing slash is removed when one is
present. -/
def stripTrailingSlash (s : String) : String :=
  if s.data.getLast? = some '/' then String.mk s.data.dropLast else s

/-- The `SoroScanClient` constructor: `!config.baseUrl` (falsy, i.e. the
empty string for a `string` field) throws
`Error("SoroScanClient: baseUrl is required")`; otherwise the fields are
initialised, with one trailing slash stripped from the base URL and the
timeout defaulted to 30000 ms. -/
def mkClient (config : SoroScanClientConfig) : Except JsError ClientState :=
  if config.baseUrl = "" then
    .error ⟨"Error", "SoroScanClient: baseUrl is required"⟩
  else
    .ok ⟨stripTrailingSlash config.baseUrl, config.apiKey,
      config.timeoutMs.getD 30000⟩

/-- The `SoroScanError` thrown on a non-success HTTP status: the HTTP
status code plus the `code`, `message` and `details` properties read off
the `apiError` value (each `none` when the property is absent, i.e.
`undefined`). -/
structure SoroScanError where
  statusCode : Nat
  code : Option Json
  message : Option Json
  details : Option Json

/-- What a client operation throws: a `SoroScanError` (its own class,
distinguishable by `instanceof`) or a plain JavaScript error (the timeout
`Error` or a rethrown transport failure). -/
inductive Thrown where
  | api : SoroScanError → Thrown
  | js : JsError → Thrown

/-! ## The `#request` pipeline -/

/-- An HTTP verb accepted by `#request`. -/
inductive HttpMethod where
  | GET | POST | PATCH | DELETE
deriving DecidableEq, Repr

/-- The arguments a façade method passes to `#request`: verb, path, and the
optional `query` / `body` options. -/
structure RequestSpec where
  method : HttpMethod
  path : String
  query : Option (List (String × JsValue))
  body : Option Json

/-- The server's response as `#request` observes it: HTTP status, status
text, and the result of `response.json()` — `some` the parsed document on
success, `none` when parsing rejects (the `.catch(() => null)` case). -/
structure Response where
  status : Nat
  statusText : String
  bodyJson : Option Json

/-- Outcome of the single awaited `fetch`: a response, or a rejection with
a thrown `Error`.  An abort fired by the client's own timer rejects with an
error whose `name` is `"AbortError"`. -/
inductive FetchOutcome where
  | ok : Response → FetchOutcome
  | err : JsError → FetchOutcome

/-- `response.ok`: status in the inclusive range 200–299. -/
def responseOk (status : Nat) : Bool :=
  200 ≤ status && status ≤ 299

/-- The message of the timeout error thrown when the abort came from the
client's own timer. -/
def timeoutMessage (timeoutMs : Nat) : String :=
  "SoroScanClient: request timed out after " ++ toString timeoutMs ++ "ms"

/-- The URL built by `#request`: base URL, path, then the query string when
a `query` option was passed (any object, even empty, is truthy). -/
def requestUrl (c : ClientState) (spec : RequestSpec) : String :=
  c.baseUrl ++ spec.path ++
    (match spec.query with
     | some q => toQueryString q
     | none => "")

/-- The headers built by `#request`: the two JSON headers always, plus
`Authorization: Bearer <key>` when `this.#apiKey` is truthy (a non-empty
string). -/
def requestHeaders (c : ClientState) : List (String × String) :=
  [("Content-Type", "application/json"), ("Accept", "application/json")] ++
    (match c.apiKey with
     | some k => if k = "" then [] else [("Authorization", "Bearer " ++ k)]
     | none => [])

/-- The non-204, non-success arm of `#request`:
`json ?? {code: "UNKNOWN_ERROR", message: "HTTP <status> <statusText>"}`
followed by `new SoroScanError(response.status, apiError)`. -/
def errorFromResponse (r : Response) : SoroScanError :=
  let json : Json := r.bodyJson.getD .null
  let apiError : Json :=
    if json.isNull then
      .obj [("code", .str "UNKNOWN_ERROR"),
            ("message", .str ("HTTP " ++ toString r.status ++ " " ++ r.statusText))]
    else json
  ⟨r.status, jsonGet apiError "code", jsonGet apiError "message",
    jsonGet apiError "details"⟩

/-- The `#request` pipeline after the URL and headers are built, as a
function of the fetch outcome.  A rejection named `AbortError` (the
client's own timer) becomes the timeout `Error`; any other rejection is
rethrown unchanged.  A 204 response returns `undefined` (`none`); otherwise
the body is parsed (`.catch(() => null)`), a non-success status throws the
normalised `SoroScanError`, and a success status returns the parsed value
(`some Json.null` when parsing failed). -/
def runRequest (c : ClientState) (outcome : FetchOutcome) :
    Except Thrown (Option Json) :=
  match outcome with
  | .err e =>
      if e.name = "AbortError" then
        .error (.js ⟨"Error", timeoutMessage c.timeoutMs⟩)
      else
        .error (.js e)
  | .ok r =>
      if r.status = 204 then .ok none
      else
        let json : Json := r.bodyJson.getD .null
        if !responseOk r.status then .error (.api (errorFromResponse r))
        else .ok (some json)

/-! ## Resource façade

Each public client method builds one `RequestSpec` and delegates to
`#request`.  A call is the method name plus its arguments; `specOf`
translates it exactly as the method bodies do. -/

/-- A public client method invocation with its arguments.  List methods
carry their parameter bag as the ordered entries of the `params` record
(`Object.entries` order); webhook bodies are the JSON the params serialise
to. -/
inductive ApiCall where
  | getEvents : List (String × JsValue) → ApiCall
  | getContracts : List (String × JsValue) → ApiCall
  | getContract : String → ApiCall
  | getTransactions : List (String × JsValue) → ApiCall
  | getTransaction : String → ApiCall
  | getLedgers : List (String × JsValue) → ApiCall
  | getLedger : Nat → ApiCall
  | getAccount : String → ApiCall
  | subscribeWebhook : Json → ApiCall
  | listWebhooks : ApiCall
  | getWebhook : String → ApiCall
  | updateWebhook : String → Json → ApiCall
  | deleteWebhook : String → ApiCall

/-- The `#request` arguments each method body passes: verb, path (with
`encodeURIComponent` around interpolated string identifiers and plain
decimal interpolation for the ledger sequence), query bag for list
methods, JSON body for webhook create/update. -/
def specOf : ApiCall → RequestSpec
  | .getEvents params => ⟨.GET, "/v1/events", some params, none⟩
  | .getContracts params => ⟨.GET, "/v1/contracts", some params, none⟩
  | .getContract contractId =>
      ⟨.GET, "/v1/contracts/" ++ encodeURIComponent contractId, none, none⟩
  | .getTransactions params => ⟨.GET, "/v1/transactions", some params, none⟩
  | .getTransaction txHash =>
      ⟨.GET, "/v1/transactions/" ++ encodeURIComponent txHash, none, none⟩
  | .getLedgers params => ⟨.GET, "/v1/ledgers", some params, none⟩
  | .getLedger sequence => ⟨.GET, "/v1/ledgers/" ++ Nat.repr sequence, none, none⟩
  | .getAccount accountId =>
      ⟨.GET, "/v1/accounts/" ++ encodeURIComponent accountId, none, none⟩
  | .subscribeWebhook params => ⟨.POST, "/v1/webhooks", none, some params⟩
  | .listWebhooks => ⟨.GET, "/v1/webhooks", none, none⟩
  | .getWebhook webhookId =>
      ⟨.GET, "/v1/webhooks/" ++ encodeURIComponent webhookId, none, none⟩
  | .updateWebhook webhookId params =>
      ⟨.PATCH, "/v1/webhooks/" ++ encodeURIComponent webhookId, none, some params⟩
  | .deleteWebhook webhookId =>
      ⟨.DELETE, "/v1/webhooks/" ++ encodeURIComponent webhookId, none, none⟩

/-- One public method call as a state transformer over the client's fields:
every method only reads the three `readonly` fields (through `#request`)
and assigns nothing, so the embedded step returns the state unchanged
alongside the result `#request` produces for the given fetch outcome. -/
def callMethod (c : ClientState) (call : ApiCall) (outcome : FetchOutcome) :
    Except Thrown (Option Json) × ClientState :=
  let spec := specOf call
  let _url := requestUrl c spec
  let _headers := requestHeaders c
  (runRequest c outcome, c)

/-! ## Observables used by the statements -/

/-- A credential was configured at construction: the stored API key is a
non-empty string (JavaScript truthiness of `this.#apiKey`; an empty string
is no credential). -/
def credentialConfigured (c : ClientState) : Prop :=
  ∃ k, c.apiKey = some k ∧ k ≠ ""

/-- The keys that make it into the emitted query string: the keys of the
entries `toQueryString` keeps, in their insertion order. -/
def queryKeys (params : List (String × JsValue)) : List String :=
  (params.filter (fun kv => jsPresent kv.2)).map Prod.fst

/-! ## Theorems -/

/-- C8: constructing a client with an empty base URL fails synchronously in
the constructor with the configuration error, and yields no client value,
so no network request is ever issued by such a construction. -/
theorem emptyBaseUrl_rejected_at_construction :
    mkClient ⟨"", none, none⟩ =
      .error ⟨"Error", "SoroScanClient: baseUrl is required"⟩ ∧
    (mkClient ⟨"", none, none⟩).toOption = none :=
  ⟨rfl, rfl⟩

/-- C5: an HTTP 204 response makes `#request` resolve with no value
(`undefined`), whatever the expected result type; in particular a
`deleteWebhook` call resolves with no value on 204. -/
theorem status204_resolves_with_no_value (c : ClientState) (r : Response)
    (h : r.status = 204) :
    runRequest c (.ok r) = .ok none ∧
    ∀ webhookId, (callMethod c (.deleteWebhook webhookId) (.ok r)).1 = .ok none := by
  constructor
  · simp [runRequest, h]
  · intro webhookId
    simp [callMethod, runRequest, h]

/-- Witness for C5 at a concrete 204 response. -/
theorem status204_resolves_with_no_value_witness :
    runRequest ⟨"http://x", none, 30000⟩ (.ok ⟨204, "No Content", none⟩) = .ok none ∧
    (callMethod ⟨"http://x", none, 30000⟩ (.deleteWebhook "wh_1")
      (.ok ⟨204, "No Content", none⟩)).1 = .ok none :=
  ⟨(status204_resolves_with_no_value ⟨"http://x", none, 30000⟩
      ⟨204, "No Content", none⟩ rfl).1,
   (status204_resolves_with_no_value ⟨"http://x", none, 30000⟩
      ⟨204, "No Content", none⟩ rfl).2 "wh_1"⟩

/-- C9: on a success status other than 204 whose body fails to parse as
JSON, `#request` resolves successfully with `null` as the result — no
thrown parse error. -/
theorem parseFailure_on_success_degrades_to_null (c : ClientState) (r : Response)
    (h204 : r.status ≠ 204) (hok : responseOk r.status = true)
    (hbody : r.bodyJson = none) :
    runRequest c (.ok r) = .ok (some .null) := by
  simp [runRequest, h204, hok, hbody]

/-- Witness for C9 at a concrete 200 response with an unparseable body. -/
theorem parseFailure_on_success_degrades_to_null_witness :
    runRequest ⟨"http://x", none, 30000⟩ (.ok ⟨200, "OK", none⟩) = .ok (some .null) :=
  parseFailure_on_success_degrades_to_null ⟨"http://x", none, 30000⟩
    ⟨200, "OK", none⟩ (by decide) rfl rfl

/-- C3: a fetch rejection named `AbortError` (the client's own timer) is
turned into the timeout error whose message contains the configured
duration in milliseconds; every other rejection is rethrown unchanged. -/
theorem abort_becomes_timeout_others_rethrown (c : ClientState) (e : JsError) :
    (e.name = "AbortError" →
      runRequest c (.err e) = .error (.js ⟨"Error", timeoutMessage c.timeoutMs⟩) ∧
      ∃ pre post, timeoutMessage c.timeoutMs =
        pre ++ toString c.timeoutMs ++ post) ∧
    (e.name ≠ "AbortError" → runRequest c (.err e) = .error (.js e)) := by
  constructor
  · intro h
    refine ⟨by simp [runRequest, h], "SoroScanClient: request timed out after ", "ms", rfl⟩
  · intro h
    simp [runRequest, h]

/-- Witness for C3: the timer's abort at 5000 ms, and a DNS-style failure
passed through untouched. -/
theorem abort_becomes_timeout_others_rethrown_witness :
    (runRequest ⟨"http://x", none, 5000⟩ (.err ⟨"AbortError", "aborted"⟩) =
       .error (.js ⟨"Error", timeoutMessage 5000⟩) ∧
     ∃ pre post, timeoutMessage 5000 = pre ++ toString 5000 ++ post) ∧
    runRequest ⟨"http://x", none, 5000⟩ (.err ⟨"TypeError", "fetch failed"⟩) =
      .error (.js ⟨"TypeError", "fetch failed"⟩) :=
  ⟨(abort_becomes_timeout_others_rethrown ⟨"http://x", none, 5000⟩
      ⟨"AbortError", "aborted"⟩).1 rfl,
   (abort_becomes_timeout_others_rethrown ⟨"http://x", none, 5000⟩
      ⟨"TypeError", "fetch failed"⟩).2 (by decide)⟩

/-- C10: a client method's result is a function of the immutable
configuration and the fetch outcome alone, the embedded state after a call
equals the state before it, and therefore no call changes the behaviour of
any later call on the same client. -/
theorem client_methods_stateless (c : ClientState) (call : ApiCall)
    (o : FetchOutcome) :
    (callMethod c call o).1 = runRequest c o ∧
    (callMethod c call o).2 = c ∧
    ∀ call2 o2, callMethod (callMethod c call o).2 call2 o2 =
      callMethod c call2 o2 :=
  ⟨rfl, rfl, fun _ _ => rfl⟩

/-- C4: the headers sent are exactly the two JSON headers, plus
`Authorization: Bearer <key>` exactly when a credential was configured; no
other headers are ever set. -/
theorem request_headers_exact (c : ClientState) :
    ("Content-Type", "application/json") ∈ requestHeaders c ∧
    ("Accept", "application/json") ∈ requestHeaders c ∧
    ((∃ k, ("Authorization", "Bearer " ++ k) ∈ requestHeaders c) ↔
      credentialConfigured c) ∧
    (∀ k, c.apiKey = some k → k ≠ "" →
      requestHeaders c =
        [("Content-Type", "application/json"), ("Accept", "application/json"),
         ("Authorization", "Bearer " ++ k)]) ∧
    (¬ credentialConfigured c →
      requestHeaders c =
        [("Content-Type", "application/json"), ("Accept", "application/json")]) := by
  obtain ⟨b, key, t⟩ := c
  cases key with
  | none =>
      refine ⟨by simp [requestHeaders], by simp [requestHeaders], ?_, ?_, ?_⟩
      · constructor
        · rintro ⟨k, hk⟩
          simp [requestHeaders] at hk
        · rintro ⟨k, hk, -⟩
          simp at hk
      · intro k hk
        simp at hk
      · intro _
        simp [requestHeaders]
  | some k0 =>
      by_cases hk0 : k0 = ""
      · subst hk0
        refine ⟨by simp [requestHeaders], by simp [requestHeaders], ?_, ?_, ?_⟩
        · constructor
          · rintro ⟨k, hk⟩
            simp [requestHeaders] at hk
          · rintro ⟨k, hk, hne⟩
            simp at hk
            exact absurd hk.symm hne
        · intro k hk hne
          simp at hk
          exact absurd hk.symm hne
        · intro _
          simp [requestHeaders]
      · refine ⟨by simp [requestHeaders, hk0], by simp [requestHeaders, hk0], ?_, ?_, ?_⟩
        · constructor
          · intro _
            exact ⟨k0, rfl, hk0⟩
          · intro _
            refine ⟨k0, ?_⟩
            simp [requestHeaders, hk0]
        · intro k hk hne
          simp at hk
          subst hk
          simp [requestHeaders, hk0]
        · intro hnc
          exact absurd ⟨k0, rfl, hk0⟩ hnc

/-- Witness for C4: headers with and without a configured credential. -/
theorem request_headers_exact_witness :
    requestHeaders ⟨"http://x", some "sk_live_1", 30000⟩ =
      [("Content-Type", "application/json"), ("Accept", "application/json"),
       ("Authorization", "Bearer sk_live_1")] ∧
    requestHeaders ⟨"http://x", none, 30000⟩ =
      [("Content-Type", "application/json"), ("Accept", "application/json")] :=
  ⟨(request_headers_exact ⟨"http://x", some "sk_live_1", 30000⟩).2.2.2.1
      "sk_live_1" rfl (by decide),
   (request_headers_exact ⟨"http://x", none, 30000⟩).2.2.2.2
      (by rintro ⟨k, hk, -⟩; simp at hk)⟩

/-- C1 counterexample: on a 500 response whose body parses to the JSON
object `{"foo": 1}` — well-formed JSON but not of the API Error shape —
`#request` does not synthesize the `UNKNOWN_ERROR` fallback: it builds the
error from that body, whose `code` and `message` properties are absent
(`undefined`), because the source only checks `json ?? fallback`
(nullishness), never conformance. -/
theorem nonconforming_body_is_still_used :
    runRequest ⟨"http://x", none, 30000⟩
        (.ok ⟨500, "Internal Server Error", some (.obj [("foo", .num 1)])⟩) =
      .error (.api ⟨500, none, none, none⟩) ∧
    (errorFromResponse ⟨500, "Internal Server Error",
        some (.obj [("foo", .num 1)])⟩).code = none ∧
    (errorFromResponse ⟨500, "Internal Server Error",
        some (.obj [("foo", .num 1)])⟩).code ≠ some (.str "UNKNOWN_ERROR") := by
  refine ⟨rfl, rfl, ?_⟩
  intro h
  rw [show (errorFromResponse ⟨500, "Internal Server Error",
      some (.obj [("foo", .num 1)])⟩).code = none from rfl] at h
  exact Option.noConfusion h

/-- C1 amended: on a non-204, non-success response the operation fails with
a `SoroScanError` carrying the HTTP status; its fields are read from the
parsed JSON body whenever that body parses to a non-null value — wh
whatever its shape — and the `{code: "UNKNOWN_ERROR", message:
"HTTP <status> <statusText>"}` fallback is used exactly when the body is
absent, unparseable, or the JSON literal `null`. -/
theorem api_error_normalization (c : ClientState) (r : Response)
    (h204 : r.status ≠ 204) (hfail : responseOk r.status = false) :
    runRequest c (.ok r) = .error (.api (errorFromResponse r)) ∧
    (errorFromResponse r).statusCode = r.status ∧
    ((r.bodyJson.getD .null).isNull = true →
      errorFromResponse r =
        ⟨r.status, some (.str "UNKNOWN_ERROR"),
          some (.str ("HTTP " ++ toString r.status ++ " " ++ r.statusText)),
          none⟩) ∧
    ((r.bodyJson.getD .null).isNull = false →
      errorFromResponse r =
        ⟨r.status, jsonGet (r.bodyJson.getD .null) "code",
          jsonGet (r.bodyJson.getD .null) "message",
          jsonGet (r.bodyJson.getD .null) "details"⟩) := by
  refine ⟨by simp [runRequest, h204, hfail], rfl, ?_, ?_⟩
  · intro h
    simp [errorFromResponse, h, jsonGet, lookupField]
  · intro h
    simp [errorFromResponse, h]

/-- Witness for the amended C1: a conforming 404 body is carried through
field by field, and a 500 with an unparseable body gets the synthesized
fallback. -/
theorem api_error_normalization_witness :
    runRequest ⟨"http://x", none, 30000⟩
        (.ok ⟨404, "Not Found",
          some (.obj [("code", .str "NOT_FOUND"), ("message", .str "no such contract")])⟩) =
      .error (.api ⟨404, some (.str "NOT_FOUND"), some (.str "no such contract"), none⟩) ∧
    errorFromResponse ⟨500, "Internal Server Error", none⟩ =
      ⟨500, some (.str "UNKNOWN_ERROR"), some (.str "HTTP 500 Internal Server Error"), none⟩ := by
  constructor
  · have h := (api_error_normalization ⟨"http://x", none, 30000⟩
      ⟨404, "Not Found",
        some (.obj [("code", .str "NOT_FOUND"), ("message", .str "no such contract")])⟩
      (by decide) rfl).1
    rw [h]
    rfl
  · exact (api_error_normalization ⟨"http://x", none, 30000⟩
      ⟨500, "Internal Server Error", none⟩ (by decide) rfl).2.2.1 rfl

/-- C7 counterexample: `replace(/\/$/, "")` removes only ONE trailing
slash, so a base URL ending in `//` is accepted but normalizes to a string
that still ends in a slash, and the constructed request URL is not the
base endpoint with no trailing slash followed by the `/`-prefixed path. -/
theorem double_trailing_slash_survives_normalization :
    mkClient ⟨"http://a//", none, none⟩ = .ok ⟨"http://a/", none, 30000⟩ ∧
    ("http://a/").data.getLast? = some '/' ∧
    requestUrl ⟨"http://a/", none, 30000⟩ (specOf .listWebhooks) =
      "http://a//v1/webhooks" ∧
    "http://a//v1/webhooks" ≠ "http://a" ++ "/v1/webhooks" := by
  exact ⟨rfl, rfl, rfl, by decide⟩

/-- C7 amended: the constructor removes exactly one trailing slash from
the configured base URL when one is present (and leaves it unchanged
otherwise), and every request URL is that stored base concatenated with
the method's `/`-prefixed path and its query-string part. -/
theorem baseUrl_one_trailing_slash_removed (config : SoroScanClientConfig)
    (c : ClientState) (h : mkClient config = .ok c) :
    c.baseUrl = stripTrailingSlash config.baseUrl ∧
    (config.baseUrl.data.getLast? = some '/' →
      c.baseUrl = String.mk config.baseUrl.data.dropLast) ∧
    (config.baseUrl.data.getLast? ≠ some '/' → c.baseUrl = config.baseUrl) ∧
    ∀ call, requestUrl c (specOf call) =
      c.baseUrl ++ (specOf call).path ++
        (match (specOf call).query with
         | some q => toQueryString q
         | none => "") := by
  unfold mkClient at h
  split at h
  · exact absurd h (by simp)
  · cases h
    refine ⟨rfl, ?_, ?_, fun call => rfl⟩
    · intro h2
      simp [stripTrailingSlash, h2]
    · intro h2
      simp [stripTrailingSlash, h2]

/-- Witness for the amended C7: a single trailing slash is stripped and a
concrete request URL is the stored base plus the path. -/
theorem baseUrl_one_trailing_slash_removed_witness :
    (⟨"http://b", some "k", 5⟩ : ClientState).baseUrl =
      stripTrailingSlash "http://b/" ∧
    requestUrl ⟨"http://b", some "k", 5⟩ (specOf (.getLedger 7)) =
      "http://b/v1/ledgers/7" := by
  constructor
  · exact (baseUrl_one_trailing_slash_removed ⟨"http://b/", some "k", some 5⟩
      ⟨"http://b", some "k", 5⟩ rfl).1
  · have h := (baseUrl_one_trailing_slash_removed ⟨"http://b/", some "k", some 5⟩
      ⟨"http://b", some "k", 5⟩ rfl).2.2.2 (.getLedger 7)
    rw [h]
    rfl

/-- Every hex digit emitted by a percent escape is in the unreserved set
(they are all alphanumeric). -/
theorem hexDigit_unreserved (n : Nat) :
    isUnreservedComponent (hexDigit n) = true := by
  match n with
  | 0 | 1 | 2 | 3 | 4 | 5 | 6 | 7 | 8 | 9 | 10 | 11 | 12 | 13 | 14 | 15 => rfl
  | (m + 16) => rfl

/-- Every character of a `%XX` escape is unreserved or the `%` sign. -/
theorem mem_percentHex (b : Nat) (c : Char) (h : c ∈ percentHex b) :
    isUnreservedComponent c = true ∨ c = '%' := by
  simp only [percentHex, List.mem_cons, List.not_mem_nil, or_false] at h
  rcases h with h | h | h
  · exact .inr h
  · exact .inl (h ▸ hexDigit_unreserved (b / 16))
  · exact .inl (h ▸ hexDigit_unreserved (b % 16))

/-- Every character `encodeURIComponent` emits for one input character is
unreserved or `%`. -/
theorem mem_encodeCharComponent (c0 c : Char) (h : c ∈ encodeCharComponent c0) :
    isUnreservedComponent c = true ∨ c = '%' := by
  unfold encodeCharComponent at h
  split at h
  · next hu =>
      simp only [List.mem_singleton] at h
      exact .inl (h ▸ hu)
  · rcases List.mem_flatten.mp h with ⟨l, hl, hc⟩
    rcases List.mem_map.mp hl with ⟨b, -, rfl⟩
    exact mem_percentHex b c hc

/-- Every character of an `encodeURIComponent` result is unreserved or `%`:
no reserved character (such as `/`) ever appears verbatim. -/
theorem mem_encodeURIComponent (s : String) (c : Char)
    (h : c ∈ (encodeURIComponent s).data) :
    isUnreservedComponent c = true ∨ c = '%' := by
  unfold encodeURIComponent at h
  rcases List.mem_flatten.mp h with ⟨l, hl, hc⟩
  rcases List.mem_map.mp hl with ⟨c0, -, rfl⟩
  exact mem_encodeCharComponent c0 c hc

/-- C6: every by-id method interpolates its string identifier
percent-encoded into the path (so no reserved character of the identifier
appears verbatim), while `getLedger` interpolates the numeric sequence as
decimal text. -/
theorem byId_paths_percent_encoded (idStr : String) (n : Nat) (body : Json) :
    (specOf (.getContract idStr)).path = "/v1/contracts/" ++ encodeURIComponent idStr ∧
    (specOf (.getTransaction idStr)).path = "/v1/transactions/" ++ encodeURIComponent idStr ∧
    (specOf (.getAccount idStr)).path = "/v1/accounts/" ++ encodeURIComponent idStr ∧
    (specOf (.getWebhook idStr)).path = "/v1/webhooks/" ++ encodeURIComponent idStr ∧
    (specOf (.updateWebhook idStr body)).path = "/v1/webhooks/" ++ encodeURIComponent idStr ∧
    (specOf (.deleteWebhook idStr)).path = "/v1/webhooks/" ++ encodeURIComponent idStr ∧
    (∀ c ∈ (encodeURIComponent idStr).data,
      isUnreservedComponent c = true ∨ c = '%') ∧
    (specOf (.getLedger n)).path = "/v1/ledgers/" ++ Nat.repr n :=
  ⟨rfl, rfl, rfl, rfl, rfl, rfl,
   fun c hc => mem_encodeURIComponent idStr c hc, rfl⟩

/-- Witness for C6 at an identifier containing a reserved `/`: the slash
is emitted as `%2F` and the full path targets exactly the encoded form. -/
theorem byId_paths_percent_encoded_witness :
    (specOf (.getContract "a/b")).path = "/v1/contracts/" ++ encodeURIComponent "a/b" ∧
    encodeURIComponent "a/b" = "a%2Fb" ∧
    (specOf (.getLedger 12345)).path = "/v1/ledgers/" ++ Nat.repr 12345 :=
  ⟨(byId_paths_percent_encoded "a/b" 12345 .null).1, by decide,
   (byId_paths_percent_encoded "a/b" 12345 .null).2.2.2.2.2.2.2⟩

/-- A `&`-join headed by a serialised `name=value` pair is never the empty
string (the pair contains at least its `=`). -/
theorem joinAmp_pair_length (k v : String) (rest : List String) :
    1 ≤ (joinAmp ((k ++ "=" ++ v) :: rest)).length := by
  have h1 : ("=" : String).length = 1 := rfl
  cases rest with
  | nil =>
      simp only [joinAmp, String.length_append, h1]
      omega
  | cons y ys =>
      simp only [joinAmp, String.length_append, h1]
      omega

/-- C2: the emitted query string is empty (not `?`) exactly when no value
is present: otherwise it is `?` followed by the `&`-join of the present
entries, each serialised once with its stringified value, in insertion
order; under the record's unique keys, each present key occurs exactly
once, and the emitted keys are exactly the present ones. -/
theorem toQueryString_exact (params : List (String × JsValue))
    (hnd : (params.map Prod.fst).Nodup) :
    (params.filter (fun kv => jsPresent kv.2) = [] → toQueryString params = "") ∧
    toQueryString params ≠ "?" ∧
    (params.filter (fun kv => jsPresent kv.2) ≠ [] →
      toQueryString params =
        "?" ++ joinAmp ((params.filter (fun kv => jsPresent kv.2)).map
          (fun kv => formEncode kv.1 ++ "=" ++ formEncode (jsString kv.2)))) ∧
    (queryKeys params).Nodup ∧
    ∀ k, k ∈ queryKeys params ↔ ∃ v, (k, v) ∈ params ∧ jsPresent v = true := by
  have hempty : params.filter (fun kv => jsPresent kv.2) = [] →
      toQueryString params = "" := by
    intro h
    simp [toQueryString, h]
  have hfull : params.filter (fun kv => jsPresent kv.2) ≠ [] →
      toQueryString params =
        "?" ++ joinAmp ((params.filter (fun kv => jsPresent kv.2)).map
          (fun kv => formEncode kv.1 ++ "=" ++ formEncode (jsString kv.2))) := by
    intro h
    unfold toQueryString urlSearchParamsToString
    rw [if_neg (by simpa [List.isEmpty_iff] using h), List.map_map]
    rfl
  refine ⟨hempty, ?_, hfull, ?_, ?_⟩
  · by_cases hf : params.filter (fun kv => jsPresent kv.2) = []
    · rw [hempty hf]
      decide
    · rw [hfull hf]
      cases hfl : params.filter (fun kv => jsPresent kv.2) with
      | nil => exact absurd hfl hf
      | cons kv rest =>
          intro heq
          have hlen := congrArg String.length heq
          rw [String.length_append, List.map_cons] at hlen
          have hq : ("?" : String).length = 1 := rfl
          have hj := joinAmp_pair_length (formEncode kv.1)
            (formEncode (jsString kv.2))
            (rest.map (fun kv => formEncode kv.1 ++ "=" ++ formEncode (jsString kv.2)))
          rw [hq] at hlen
          omega
  · exact hnd.sublist ((List.filter_sublist params).map Prod.fst)
  · intro k
    simp only [queryKeys, List.mem_map, List.mem_filter]
    constructor
    · rintro ⟨⟨k', v⟩, ⟨hm, hp⟩, rfl⟩
      exact ⟨v, hm, hp⟩
    · rintro ⟨v, hm, hp⟩
      exact ⟨(k, v), ⟨hm, hp⟩, rfl⟩

/-- Witness for C2 on a concrete filter bag: absent and `null` fields are
dropped, present ones are serialised once each in insertion order (with a
space form-encoded as `+`), and an all-absent bag emits no query string at
all. -/
theorem toQueryString_exact_witness :
    toQueryString [("contractId", .str "CC AA"), ("first", .num 50),
      ("after", .undef), ("verified", .bool true), ("cursor", .null)] =
      "?contractId=CC+AA&first=50&verified=true" ∧
    toQueryString [("after", .undef), ("cursor", .null)] = "" ∧
    (queryKeys [("contractId", .str "CC AA"), ("first", .num 50),
      ("after", .undef), ("verified", .bool true), ("cursor", .null)]).Nodup ∧
    toQueryString [("after", .undef), ("cursor", .null)] ≠ "?" := by
  refine ⟨by decide, ?_, ?_, ?_⟩
  · exact (toQueryString_exact [("after", .undef), ("cursor", .null)]
      (by decide)).1 rfl
  · exact (toQueryString_exact [("contractId", .str "CC AA"), ("first", .num 50),
      ("after", .undef), ("verified", .bool true), ("cursor", .null)]
      (by decide)).2.2.2.1
  · exact (toQueryString_exact [("after", .undef), ("cursor", .null)]
      (by decide)).2.1

end SoroScan
